import Mathlib

/-!
Verification development for the FundRoom access-control layer:
entry proxy (`src/proxy.ts`), app middleware, admin magic-link
issuance/verification, email magic-link issuance, and the spec-described
rate limiter and admin-magic-verify redirect validation.

Machine integers do not occur in this layer; timestamps are modelled as
`Int` milliseconds (JavaScript `Date.getTime()` values).  Strings are
modelled with Lean `String`/`List Char`; the source operates on ASCII
paths, hosts and identifiers.
-/

namespace Dataroom

/-! ## Generic string helpers mirroring the JavaScript operations used -/

/-- `host.split(':')[0]`: the portion of the string before the first colon. -/
def preColon (s : String) : String :=
  String.mk (s.toList.takeWhile (fun c => c ≠ ':'))

/-- `s.split(',')[0]`: the portion of the string before the first comma. -/
def preComma (s : String) : String :=
  String.mk (s.toList.takeWhile (fun c => c ≠ ','))

/-- ASCII whitespace trimmed by JavaScript `String.prototype.trim` (the
inputs of this layer are ASCII). -/
def isWsChar (c : Char) : Bool :=
  c = ' ' || c = Char.ofNat 9 || c = Char.ofNat 10 || c = Char.ofNat 13
    || c = Char.ofNat 11 || c = Char.ofNat 12

/-- JavaScript `String.prototype.trim` on the ASCII inputs of this layer. -/
def jsTrim (s : String) : String :=
  String.mk (((s.toList.dropWhile isWsChar).reverse.dropWhile isWsChar).reverse)

/-- JavaScript `String.prototype.toLowerCase` on the ASCII inputs of
this layer, character by character. -/
def strToLower (s : String) : String :=
  String.mk (s.toList.map Char.toLower)

/-- Whether `sub` occurs at the start of `l`. -/
def listHasPre : List Char → List Char → Bool
  | [], _ => true
  | _ :: _, [] => false
  | a :: s1, b :: s2 => a = b && listHasPre s1 s2

/-- JavaScript `String.prototype.startsWith`: prefix test on the
character sequences. -/
def strStarts (s pre : String) : Bool :=
  listHasPre pre.toList s.toList

/-! ## `src/proxy.ts` : `isAnalyticsPath` -/

/-- `proxy.ts` `isAnalyticsPath`: tests `/^\/ingest\/.*/`, i.e. the path
starts with `/ingest/`. -/
def isAnalyticsPath (path : String) : Bool :=
  strStarts path "/ingest/"

/-! ## `src/proxy.ts` : `validateHost` -/

/-- JavaScript character class `[a-zA-Z0-9]` (ASCII alphanumeric). -/
def isAlnumChar (c : Char) : Bool := c.isAlpha || c.isDigit

/-- JavaScript character class `[a-zA-Z0-9\-\.]`. -/
def hostBodyChar (c : Char) : Bool := isAlnumChar c || c = '-' || c = '.'

/-- Tail of the host pattern: body characters followed by a final
alphanumeric character (the `[a-zA-Z0-9\-\.]*[a-zA-Z0-9]$` part). -/
def hostPatTail : List Char → Bool
  | [] => false
  | [c] => isAlnumChar c
  | c :: rest => hostBodyChar c && hostPatTail rest

/-- The anchored regex
`/^[a-zA-Z0-9][a-zA-Z0-9\-\.]*[a-zA-Z0-9]$|^[a-zA-Z0-9]$/` of
`validateHost`, evaluated on the character list. -/
def hostPat : List Char → Bool
  | [] => false
  | [c] => isAlnumChar c
  | c :: rest => isAlnumChar c && hostPatTail rest

/-- `proxy.ts` `validateHost`: `null`/empty host is falsy; otherwise the
portion before the first `:` must be at most 253 characters and match the
host pattern. -/
def validateHost (host : Option String) : Bool :=
  match host with
  | none => false
  | some h =>
    if h = "" then false
    else
      let cleanHost := preColon h
      if 253 < cleanHost.length then false
      else if ¬ hostPat cleanHost.toList then false
      else true

/-! ## `src/proxy.ts` : `validateClientIP` -/

/-- `String.split` on the dot separator, on character lists (e.g.
`a..b` yields `[a, "", b]` and the empty string yields `[""]`). -/
def splitOnDot : List Char → List (List Char)
  | [] => [[]]
  | c :: cs =>
    if c = '.' then [] :: splitOnDot cs
    else
      match splitOnDot cs with
      | h :: t => (c :: h) :: t
      | [] => [[c]]

/-- Regex `/^(\d{1,3}\.){3}\d{1,3}$/`: four dot-separated groups of one to
three decimal digits. -/
def ipv4Test (s : String) : Bool :=
  let parts := splitOnDot s.toList
  parts.length = 4 &&
    parts.all (fun p => 1 ≤ p.length && p.length ≤ 3 && p.all Char.isDigit)

/-- Hexadecimal digit as used by the IPv6 character class `[a-fA-F0-9]`. -/
def isHexChar (c : Char) : Bool :=
  c.isDigit || ('a' ≤ c && c ≤ 'f') || ('A' ≤ c && c ≤ 'F')

/-- Regex `/^([a-fA-F0-9:]+)$/`: a non-empty string of hex digits and
colons. -/
def ipv6Test (s : String) : Bool :=
  s ≠ "" && s.toList.all (fun c => isHexChar c || c = ':')

/-- `proxy.ts` `validateClientIP` on the two client-IP-bearing headers:
`forwardedFor?.split(',')[0]?.trim() || realIP || null`, then the
candidate must match the IPv4 or IPv6 pattern, else `null`. -/
def validateClientIP (forwardedFor realIP : Option String) : Option String :=
  let fallback : Option String :=
    match realIP with
    | some r => if r = "" then none else some r
    | none => none
  let candidate : Option String :=
    match forwardedFor with
    | some f =>
      let t := jsTrim (preComma f)
      if t = "" then fallback else some t
    | none => fallback
  match candidate with
  | none => none
  | some ip => if ipv4Test ip || ipv6Test ip then some ip else none

/-! ## `src/proxy.ts` : `sanitizePath` -/

/-- One-pass scanner for `path.replace(/\.{2,}/g, '')`: `pending` counts
the dots of the current run not yet emitted (saturated at 2, since any run
of two or more dots is deleted whole while a single dot is kept). -/
def stripDotRunsGo (pending : Nat) : List Char → List Char
  | [] => if pending = 1 then ['.'] else []
  | c :: cs =>
    if c = '.' then stripDotRunsGo (min (pending + 1) 2) cs
    else if pending = 1 then '.' :: c :: stripDotRunsGo 0 cs
    else c :: stripDotRunsGo 0 cs

/-- `path.replace(/\.{2,}/g, '')`: delete every run of two or more
consecutive dots (a single dot is kept). -/
def stripDotRuns (l : List Char) : List Char :=
  stripDotRunsGo 0 l

/-- One-pass scanner for `sanitized.replace(/\/+/g, '/')`: `prevSlash`
records whether the previous character was a slash already emitted. -/
def collapseSlashesGo (prevSlash : Bool) : List Char → List Char
  | [] => []
  | c :: cs =>
    if c = '/' then
      if prevSlash then collapseSlashesGo true cs
      else '/' :: collapseSlashesGo true cs
    else c :: collapseSlashesGo false cs

/-- `sanitized.replace(/\/+/g, '/')`: collapse every run of slashes to a
single slash. -/
def collapseSlashes (l : List Char) : List Char :=
  collapseSlashesGo false l

/-- Value of an ASCII hex digit, `none` for other characters. -/
def hexVal (c : Char) : Option Nat :=
  if c.isDigit then some (c.toNat - 48)
  else if 'a' ≤ c ∧ c ≤ 'f' then some (c.toNat - 87)
  else if 'A' ≤ c ∧ c ≤ 'F' then some (c.toNat - 55)
  else none

/-- `decodeURIComponent`, modelled byte-wise: each valid `%XX` escape
becomes the character with code `XX` (multi-byte UTF-8 sequences decode to
one character per byte); a malformed escape raises `URIError` in
JavaScript, modelled as `none` (the proxy's outer catch turns it into a
500 response). -/
def decodePercent : List Char → Option (List Char)
  | [] => some []
  | '%' :: h1 :: h2 :: rest =>
    match hexVal h1, hexVal h2 with
    | some a, some b => (decodePercent rest).map (fun d => Char.ofNat (16 * a + b) :: d)
    | _, _ => none
  | c :: cs =>
    if c = '%' then none
    else (decodePercent cs).map (fun d => c :: d)

/-- The character class `[<>'"]` removed after percent-decoding.  The two
quote characters are matched by code point (39 = single quote, 34 = double
quote). -/
def isAngleOrQuote (c : Char) : Bool :=
  c = '<' || c = '>' || c.toNat = 39 || c.toNat = 34

/-- `proxy.ts` `sanitizePath`: strip dot runs, collapse slash runs, then
percent-decode and remove angle/quote characters.  `none` models the
`URIError` thrown by `decodeURIComponent` on a malformed escape. -/
def sanitizePath (path : String) : Option String :=
  match decodePercent (collapseSlashes (stripDotRuns path.toList)) with
  | some decoded => some (String.mk (decoded.filter (fun c => ¬ isAngleOrQuote c)))
  | none => none

/-! ## `src/proxy.ts` : the entry proxy dispatch -/

/-- External collaborators of the proxy that live outside this layer
(`isWebhookPath` from `lib/middleware/incoming-webhooks`, the
environment-dependent `isCustomDomain`, and the `BLOCKED_PATHNAMES`
regex test of the `/view/` branch). -/
structure ProxyEnv where
  webhookHost : Option String → Bool
  customDomain : String → Bool
  blockedView : String → Bool

/-- The request data consumed by `proxy`. -/
structure ProxyReq where
  rawPath : String
  host : Option String
  forwardedFor : Option String
  realIP : Option String

/-- The routing decision `proxy` reaches: an early JSON error response, or
dispatch to exactly one downstream handler. -/
inductive ProxyOutcome where
  | errorResp (message : String) (status : Nat)
  | analytics
  | webhook
  | domain
  | app
  | viewBlocked
  | passthrough
deriving DecidableEq, Repr

/-- The dispatch chain of `proxy` (lines 142-183 of `proxy.ts`): first
match wins among analytics passthrough, webhook handler, domain
middleware, app middleware, and the `/view/` blocked-path check; the
routing decision does not depend on the client IP. -/
def proxyDispatch (env : ProxyEnv) (path : String) (host : Option String) :
    ProxyOutcome :=
  if isAnalyticsPath path then .analytics
  else if env.webhookHost host then .webhook
  else if env.customDomain (host.getD "") then .domain
  else if ¬ (strStarts path "/view/" || strStarts path "/verify"
              || strStarts path "/unsubscribe") then
    .app
  else if strStarts path "/view/" && (env.blockedView path || path.toList.contains '.') then
    .viewBlocked
  else
    .passthrough

/-- `proxy.ts` `proxy`: sanitize the path (a decode failure is caught by
the outer `try` and becomes the generic 500), validate the host, attach
the validated client IP as the `x-client-ip` header (second component;
`none` when absent or malformed), and dispatch.  The first component is
the routing decision. -/
def proxy (env : ProxyEnv) (req : ProxyReq) : ProxyOutcome × Option String :=
  match sanitizePath req.rawPath with
  | none => (.errorResp "Internal server error" 500, none)
  | some path =>
    if ¬ validateHost req.host then
      (.errorResp "Invalid host header" 400, none)
    else
      (proxyDispatch env path req.host, validateClientIP req.forwardedFor req.realIP)

/-! ## `AppMiddleware` (`lib/middleware/app`) -/

/-- The claims of the decoded NextAuth session token used by the
middleware: `token?.email`, `token?.role`, `token?.createdAt`.
`createdAt` is an ISO timestamp string in the source, modelled as its
`Date.getTime()` value in milliseconds. -/
structure JWTClaims where
  email : Option String
  role : Option String
  createdAt : Option Int
deriving Repr

/-- The request data consumed by `AppMiddleware`: `url.pathname` and the
query parameters of `url.searchParams` (array-valued parameters are
already reduced to key/value pairs; lookup takes the first match). -/
structure AppReq where
  path : String
  query : List (String × String)
deriving Repr

/-- `url.searchParams.has(k)`. -/
def hasParam (req : AppReq) (k : String) : Bool :=
  req.query.any (fun p => p.1 = k)

/-- `url.searchParams.get(k)` (first value, `null` if absent). -/
def getParam (req : AppReq) (k : String) : Option String :=
  (req.query.find? (fun p => p.1 = k)).map (fun p => p.2)

/-- `url.search`: empty string when there are no query parameters,
otherwise `?k1=v1&k2=v2&...`. -/
def searchString (q : List (String × String)) : String :=
  match q with
  | [] => ""
  | _ => "?" ++ String.intercalate "&" (q.map (fun p => p.1 ++ "=" ++ p.2))

/-- The `nextPath` computed by the guards:
`url.search ? path + url.search : path`. -/
def nextPathOf (req : AppReq) : String :=
  if searchString req.query ≠ "" then req.path ++ searchString req.query
  else req.path

/-- Whether `sub` occurs anywhere inside `l`. -/
def listHasSub (sub : List Char) : List Char → Bool
  | [] => sub.isEmpty
  | c :: tl => listHasPre sub (c :: tl) || listHasSub sub tl

/-- JavaScript `String.prototype.includes`. -/
def containsSub (s sub : String) : Bool :=
  listHasSub sub.toList s.toList

/-- The `gpRoutes` list of `AppMiddleware`. -/
def gpRoutes : List String :=
  ["/dashboard", "/settings", "/documents", "/datarooms", "/admin", "/hub"]

/-- The result of `AppMiddleware`: `NextResponse.next()`, a redirect
(target path plus the query parameters set on the target URL), or an
exception propagating to the proxy's catch-all (`thrown`, raised by
`decodeURIComponent` on a malformed `next` parameter). -/
inductive MWResponse where
  | next
  | redirect (path : String) (query : List (String × String))
  | thrown
deriving DecidableEq, Repr

/-- `AppMiddleware` from `lib/middleware/app`: root fast path, public
pages, `/view/` and `/viewer-redirect` bypasses, LP route guard, GP route
guard, unauthenticated fallback, first-login welcome gate, authenticated
login-page redirect, viewer-portal allowance, and the implicit
`undefined` fall-through (`none`). -/
def AppMiddleware (now : Int) (req : AppReq) (token : Option JWTClaims) :
    Option MWResponse :=
  if req.path = "/" then some (.redirect "/login" [])
  else
    let isInvited := hasParam req "invitation"
    let userEmail := token.bind (fun t => t.email)
    let userRole := (token.bind (fun t => t.role)).getD "LP"
    let userCreatedAt := token.bind (fun t => t.createdAt)
    if req.path = "/lp/onboard" ∨ req.path = "/lp/login" ∨ req.path = "/signup" then
      some .next
    else if strStarts req.path "/view/" then some .next
    else if req.path = "/viewer-redirect" then some .next
    else if strStarts req.path "/lp/" then
      if userEmail.isNone then
        some (.redirect "/lp/login" [("next", nextPathOf req)])
      else if userRole ≠ "LP" ∧ userRole ≠ "GP" then
        some (.redirect "/viewer-redirect" [])
      else some .next
    else if req.path ≠ "/admin/login" ∧ gpRoutes.any (fun r => strStarts req.path r) then
      if userEmail.isNone then
        some (.redirect "/admin/login" [("next", nextPathOf req)])
      else if userRole = "LP" then
        some (.redirect "/viewer-portal" [])
      else some .next
    else
      let isLoginPage := req.path = "/login" ∨ req.path = "/admin/login"
          ∨ req.path = "/lp/login"
      let isAdminRoute := strStarts req.path "/dashboard" = true
          ∨ strStarts req.path "/settings" = true ∨ strStarts req.path "/documents" = true
          ∨ strStarts req.path "/datarooms" = true
      if userEmail.isNone ∧ ¬ isLoginPage then
        let loginPath := if isAdminRoute then "/admin/login" else "/login"
        let q := if req.path ≠ "/" then [("next", nextPathOf req)] else ([] : List (String × String))
        some (.redirect loginPath q)
      else
        let fresh : Bool :=
          match userCreatedAt with
          | some c => decide (now - 10000 < c)
          | none => false
        if userEmail.isSome ∧ fresh ∧ req.path ≠ "/welcome" ∧ ¬ isInvited then
          some (.redirect "/welcome" [])
        else if userEmail.isSome ∧ isLoginPage then
          let defaultRedirect :=
            if req.path = "/admin/login" then "/hub" else "/viewer-redirect"
          match getParam req "next" with
          | some np =>
            match decodePercent np.toList with
            | none => some .thrown
            | some dl =>
              let nextPath := String.mk dl
              if containsSub nextPath "/login" ∨ containsSub nextPath "/admin/login"
                  ∨ containsSub nextPath "/lp/login" then
                some (.redirect defaultRedirect [])
              else
                some (.redirect nextPath [])
          | none => some (.redirect defaultRedirect [])
        else if userEmail.isSome ∧ req.path = "/viewer-portal" then some .next
        else none

/-! ## Magic links (`lib/auth/admin-magic-link.ts`,
`lib/emails/send-verification-request.ts`) -/

/-- `email.trim().toLowerCase()` as performed by the admin magic-link
functions. -/
def normEmail (email : String) : String :=
  strToLower (jsTrim email)

/-- A row of the `verificationToken` table:
`{identifier, token, expires}` (`expires` in milliseconds). -/
structure VTokenRow where
  identifier : String
  token : String
  expires : Int
deriving DecidableEq, Repr

/-- `prisma.verificationToken.findUnique({where: {token}})`: `token` has a
unique constraint; the model returns the first matching row. -/
def findByToken (db : List VTokenRow) (token : String) : Option VTokenRow :=
  db.find? (fun r => r.token == token)

/-- `prisma.verificationToken.delete({where: {token}})`: remove the rows
with the given unique token. -/
def deleteByToken (db : List VTokenRow) (token : String) : List VTokenRow :=
  db.filter (fun r => !(r.token == token))

/-- `createAdminMagicLink`: check the admin allow-list (static list or
database, abstracted as `isAdmin`), then persist
`{identifier := "admin-magic:" ++ normalized email, token, expires}` and
return the verification URL.  No existing row is removed.  The result is
`(returned link if any, new table state)`. -/
def createAdminMagicLink (isAdmin : String → Bool) (baseUrl email token : String)
    (redirectPath : Option String) (expires : Int) (db : List VTokenRow) :
    Option String × List VTokenRow :=
  let normalizedEmail := normEmail email
  if ¬ isAdmin normalizedEmail then (none, db)
  else
    let row : VTokenRow :=
      { identifier := "admin-magic:" ++ normalizedEmail, token := token, expires := expires }
    let params :=
      match redirectPath with
      | some rp => "token=" ++ token ++ "&email=" ++ normalizedEmail ++ "&redirect=" ++ rp
      | none => "token=" ++ token ++ "&email=" ++ normalizedEmail
    (some (baseUrl ++ "/api/auth/admin-magic-verify?" ++ params), db ++ [row])

/-- `verifyAdminMagicLink`: admin allow-list check, token lookup,
identifier match, expiry check (expired rows are deleted), and single-use
deletion on success.  Returns `(verification outcome, new table state)`.
`now` is `Date.now()` in milliseconds. -/
def verifyAdminMagicLink (isAdmin : String → Bool) (now : Int)
    (token email : String) (db : List VTokenRow) : Bool × List VTokenRow :=
  let normalizedEmail := normEmail email
  let identifier := "admin-magic:" ++ normalizedEmail
  if ¬ isAdmin normalizedEmail then (false, db)
  else
    match findByToken db token with
    | none => (false, db)
    | some verification =>
      if verification.identifier ≠ identifier then (false, db)
      else if verification.expires < now then (false, deleteByToken db token)
      else (true, deleteByToken db token)

/-- A row of the `magicLinkCallback` table used by the email-login
variant. -/
structure MLCRow where
  identifier : String
  token : String
  callbackUrl : String
  expires : Int
deriving DecidableEq, Repr

/-- The database effect of `sendVerificationRequestEmail`: delete every
`magicLinkCallback` row whose identifier is the lowercased email, then
create the new row (`expires = now + 30 minutes`). -/
def sendVerificationRequestEmail (email url token : String) (now : Int)
    (db : List MLCRow) : List MLCRow :=
  let emailLower := strToLower email
  let purged := db.filter (fun r => !(r.identifier == emailLower))
  purged ++ [{ identifier := emailLower, token := token, callbackUrl := url,
               expires := now + 30 * 60 * 1000 }]

/-! ## Admin-magic-verify redirect validation (spec-modelled) -/

/-- Modelled from the spec: the handler `pages/api/auth/admin-magic-verify.ts`
is missing from the sources (only its tests are present).  Spec §4.5: the
caller-supplied post-verification redirect path "must match an explicit
allow-list of path prefixes (e.g., hub, dashboard, settings, datarooms,
admin)". -/
def allowedRedirectPrefixes : List String :=
  ["/hub", "/dashboard", "/settings", "/datarooms", "/admin"]

/-- Modelled from the spec: the redirect path "must be a same-origin
relative path beginning with a single `/`; absolute URLs,
protocol-relative URLs (`//...`), and any path outside the allow-list are
rejected". -/
def isValidRedirectPath (s : String) : Bool :=
  strStarts s "/" && ¬ strStarts s "//"
    && allowedRedirectPrefixes.any (fun p => strStarts s p)

/-- Modelled from the spec: rejected or absent redirect parameters fall
back to "a fixed default destination" (`/hub`, per the tests and the
testable-properties section). -/
def finalRedirectTarget (redirect : Option String) : String :=
  match redirect with
  | some r => if isValidRedirectPath r then r else "/hub"
  | none => "/hub"

/-! ## Rate limiter (spec-modelled) -/

/-- Modelled from the spec: `lib/security/rate-limiter.ts` is missing from
the sources (only its tests are present).  Per-limiter configuration
`{windowMs, maxRequests, keyPrefix}` (§4.4). -/
structure RateLimitConfig where
  windowMs : Nat
  maxRequests : Nat
  keyPfx : String

/-- Modelled from the spec: a rate-limit counter holds
`{count, windowStart}` (§3). -/
structure RLEntry where
  count : Nat
  windowStart : Nat
deriving DecidableEq, Repr

/-- Modelled from the spec: counters are "keyed by
`(keyPrefix, clientIP, endpoint)`" (§3). -/
abbrev RLKey := String × String × String

/-- The process-local counter map, `none` for keys never seen (created
lazily on first request). -/
abbrev RLStore := RLKey → Option RLEntry

/-- The key of a request under a limiter configuration. -/
def rlKey (cfg : RateLimitConfig) (ip endpoint : String) : RLKey :=
  (cfg.keyPfx, ip, endpoint)

/-- Modelled from the spec: the admission decision, carrying the
`X-RateLimit-Limit` / `X-RateLimit-Remaining` / `X-RateLimit-Reset`
header values when allowed, and the 429 status with JSON body fields
(`error`, `retryAfter` seconds) when rejected (§4.4, §6). -/
inductive RLDecision where
  | allowed (limit remaining reset : Nat)
  | rejected (status : Nat) (error : String) (retryAfter : Nat)
deriving DecidableEq, Repr

/-- Modelled from the spec (§4.4): fixed window per key; increment the
counter for the current window (reinitialising it when the window has
elapsed); new count ≤ maxRequests → allow with
`remaining = max − count` (floor 0, via `Nat` subtraction); otherwise
reject with `429`, error `"Too many requests"` and a `retryAfter` value.
`now` in milliseconds. -/
def rateLimit (cfg : RateLimitConfig) (store : RLStore) (now : Nat)
    (ip endpoint : String) : RLDecision × RLStore :=
  let k := rlKey cfg ip endpoint
  let entry : RLEntry :=
    match store k with
    | some e =>
      if now < e.windowStart + cfg.windowMs then
        { count := e.count + 1, windowStart := e.windowStart }
      else
        { count := 1, windowStart := now }
    | none => { count := 1, windowStart := now }
  let newStore : RLStore := fun k2 => if k2 = k then some entry else store k2
  if entry.count ≤ cfg.maxRequests then
    (.allowed cfg.maxRequests (cfg.maxRequests - entry.count)
      ((entry.windowStart + cfg.windowMs - now) / 1000), newStore)
  else
    (.rejected 429 "Too many requests"
      ((entry.windowStart + cfg.windowMs - now) / 1000), newStore)

/-! ## Specification-level host grammar (for comparison with `hostPat`) -/

/-- The spec's hostname grammar `^[a-zA-Z0-9][a-zA-Z0-9\-.]*[a-zA-Z0-9]$`
(or a single alphanumeric character), stated declaratively: the first and
last characters are alphanumeric and every character is alphanumeric, a
hyphen or a dot. -/
def grammarSpec (l : List Char) : Prop :=
  (∃ c, l.head? = some c ∧ isAlnumChar c = true) ∧
  (∃ c, l.getLast? = some c ∧ isAlnumChar c = true) ∧
  (∀ c ∈ l, hostBodyChar c = true)

/-! ## Derived observation helpers -/

/-- The live (unexpired) `verificationToken` rows for an identifier: rows
whose identifier matches and whose expiry has not passed (`expires < now`
is the expiry condition used by `verifyAdminMagicLink`). -/
def liveRowsFor (db : List VTokenRow) (ident : String) (now : Int) : List VTokenRow :=
  db.filter (fun r => r.identifier == ident && decide (now ≤ r.expires))

/-- The paths on which `AppMiddleware` reaches its generic authenticated
handling (the welcome gate): not the root fast path, not a public page,
not under `/view/`, not `/viewer-redirect`, not under the LP route group,
not a GP route, and not a login page. -/
def welcomeGateScope (p : String) : Prop :=
  p ≠ "/" ∧ p ≠ "/lp/onboard" ∧ p ≠ "/lp/login" ∧ p ≠ "/signup" ∧
  strStarts p "/view/" = false ∧ p ≠ "/viewer-redirect" ∧
  strStarts p "/lp/" = false ∧
  gpRoutes.any (fun r => strStarts p r) = false ∧
  p ≠ "/login" ∧ p ≠ "/admin/login"

/-! # Helper lemmas -/

theorem listHasPre_iff (a l : List Char) :
    listHasPre a l = true ↔ a <+: l := by
  induction a generalizing l with
  | nil => simp [listHasPre]
  | cons x xs ih =>
    cases l with
    | nil => simp [listHasPre]
    | cons y ys =>
      simp only [listHasPre, Bool.and_eq_true, decide_eq_true_eq, ih,
        List.cons_prefix_cons]

theorem strStarts_iff (s pre : String) :
    strStarts s pre = true ↔ pre.toList <+: s.toList := by
  simp [strStarts, listHasPre_iff]

theorem ne_of_strStarts {s t p : String} (h : strStarts s p = true)
    (h2 : strStarts t p = false) : s ≠ t := by
  intro he
  subst he
  rw [h] at h2
  exact Bool.noConfusion h2

theorem strStarts_false_of_incomparable {s p q : String}
    (h : strStarts s p = true) (hpq : strStarts q p = false)
    (hqp : strStarts p q = false) : strStarts s q = false := by
  by_contra hq
  rw [Bool.not_eq_false, strStarts_iff] at hq
  rw [strStarts_iff] at h
  rcases List.prefix_or_prefix_of_prefix hq h with hc | hc
  · rw [← Bool.not_eq_true, strStarts_iff] at hqp
    exact hqp hc
  · rw [← Bool.not_eq_true, strStarts_iff] at hpq
    exact hpq hc

theorem findByToken_deleteByToken (db : List VTokenRow) (t : String) :
    findByToken (deleteByToken db t) t = none := by
  simp only [findByToken, deleteByToken, List.find?_eq_none, List.mem_filter,
    Bool.not_eq_eq_eq_not, Bool.not_true]
  intro r hr
  simp [hr.2]

/-! # Claim theorems -/

/-- C10: for every request whose path is exactly `/`, `AppMiddleware`
redirects to `/login` before the session cookie is decoded — the result
is the same for every session token (including a valid authenticated
one), so the root path is exempt from the route-group guards and the
authenticated-user login-page redirect logic. -/
theorem c10_root_path_always_redirects_to_login (now : Int)
    (q : List (String × String)) (token : Option JWTClaims) :
    AppMiddleware now { path := "/", query := q } token =
      some (.redirect "/login" []) := by
  simp [AppMiddleware]

/-- C6: the sanitizer is not effective on percent-encoded traversal
sequences: `sanitizePath` strips literal `..` runs and collapses slashes
BEFORE percent-decoding, so the input path `/%2e%2e/secret` sanitizes to
`/../secret`, which still contains a `..` sequence — contradicting the
claimed defense, whose evident intent (path-traversal protection, which
is why the sanitizer percent-decodes at all) the code defeats by decoding
after stripping. -/
theorem c6_sanitize_misses_encoded_dotdot :
    sanitizePath "/%2e%2e/secret" = some "/../secret" ∧
    containsSub "/../secret" ".." = true := by
  constructor
  · decide
  · decide

/-- C9 counterexample: a request whose `x-forwarded-for` value
`not-an-ip` conforms to neither IP pattern is NOT rejected: the proxy
dispatches it to the app middleware (outcome `.app`) with no `x-client-ip`
header attached, rather than returning any 4xx error. -/
theorem c9_counterexample_malformed_ip_forwarded :
    validateClientIP (some "not-an-ip") none = none ∧
    proxy { webhookHost := fun _ => false, customDomain := fun _ => false,
            blockedView := fun _ => false }
      { rawPath := "/dashboard", host := some "example.com",
        forwardedFor := some "not-an-ip", realIP := none } =
      (.app, none) := by
  constructor
  · decide
  · decide

/-- `proxyDispatch` never produces an error response. -/
theorem proxyDispatch_ne_errorResp (env : ProxyEnv) (path : String)
    (host : Option String) (m : String) (st : Nat) :
    proxyDispatch env path host ≠ ProxyOutcome.errorResp m st := by
  unfold proxyDispatch
  split_ifs <;> simp

/-- C9 amended: a malformed client IP does not cause rejection.  The
routing decision is independent of the client-IP-bearing headers; when
the candidate IP fails both patterns the request simply proceeds with no
sanitized `x-client-ip` attached; and the only early JSON error responses
the proxy produces are the 400 invalid-host response and the generic 500
of the catch-all — none is triggered by a malformed client IP. -/
theorem c9_amended_malformed_ip_not_rejected :
    (∀ (env : ProxyEnv) (req : ProxyReq),
      (proxy env req).1 =
        (proxy env { req with forwardedFor := none, realIP := none }).1) ∧
    (∀ (env : ProxyEnv) (req : ProxyReq),
      validateClientIP req.forwardedFor req.realIP = none →
        (proxy env req).2 = none) ∧
    (∀ (env : ProxyEnv) (req : ProxyReq) (m : String) (st : Nat),
      (proxy env req).1 = ProxyOutcome.errorResp m st →
        (m = "Invalid host header" ∧ st = 400) ∨
        (m = "Internal server error" ∧ st = 500)) := by
  refine ⟨?_, ?_, ?_⟩
  · intro env req
    unfold proxy
    cases hs : sanitizePath req.rawPath
    · rfl
    · simp only []
      split <;> rfl
  · intro env req h
    unfold proxy
    cases hs : sanitizePath req.rawPath
    · rfl
    · simp only []
      split
      · rfl
      · simp [h]
  · intro env req m st h
    unfold proxy at h
    cases hs : sanitizePath req.rawPath <;> rw [hs] at h
    · simp only [Prod.fst] at h
      cases h
      right
      exact ⟨rfl, rfl⟩
    · simp only [] at h
      split at h
      · simp only [Prod.fst] at h
        cases h
        left
        exact ⟨rfl, rfl⟩
      · exact absurd h (proxyDispatch_ne_errorResp _ _ _ _ _)

/-- C9 amended witness: concrete instance — a request with malformed
forwarded IP header proceeds with no `x-client-ip`, per the amended
theorem applied at that request. -/
theorem c9_amended_witness :
    validateClientIP (some "bad_ip") none = none ∧
    (proxy { webhookHost := fun _ => false, customDomain := fun _ => false,
             blockedView := fun _ => false }
      { rawPath := "/hub", host := some "example.com",
        forwardedFor := some "bad_ip", realIP := none }).2 = none := by
  constructor
  · decide
  · exact c9_amended_malformed_ip_not_rejected.2.1
      { webhookHost := fun _ => false, customDomain := fun _ => false,
        blockedView := fun _ => false }
      { rawPath := "/hub", host := some "example.com",
        forwardedFor := some "bad_ip", realIP := none }
      (by decide)

/-- C1 counterexample: a presented (token, email) pair whose stored
record matches the token, whose identifier matches the expected
identifier, and whose expiry has not passed, nevertheless FAILS
verification (with the record left in place) when the email is not in the
admin allow-list — the code's admin pre-check precedes the four-step
lifecycle the claim describes. -/
theorem c1_counterexample_nonadmin_valid_record_fails :
    verifyAdminMagicLink (fun _ => false) 0 "tok1" "a@b.com"
        [{ identifier := "admin-magic:a@b.com", token := "tok1", expires := 100 }] =
      (false, [{ identifier := "admin-magic:a@b.com", token := "tok1", expires := 100 }]) ∧
    findByToken [{ identifier := "admin-magic:a@b.com", token := "tok1", expires := 100 }] "tok1" =
      some { identifier := "admin-magic:a@b.com", token := "tok1", expires := 100 } ∧
    "admin-magic:a@b.com" = "admin-magic:" ++ normEmail "a@b.com" ∧
    ¬ ((100 : Int) < 0) := by
  refine ⟨by decide, by decide, by decide, by decide⟩

/-- C1 amended: verification follows the four-step lifecycle PRECEDED by
the admin allow-list check: a non-admin email fails with the store
untouched; then, in order: an unknown token fails; a stored identifier
differing from `admin-magic:` plus the trimmed lowercased email fails; an
expired record is deleted and verification fails; otherwise the record is
deleted and verification succeeds.  After the record for a token is
deleted (one successful verification or one expired presentation), every
subsequent verification attempt with that token fails. -/
theorem c1_amended_verification_lifecycle (isAdmin : String → Bool) (now : Int)
    (token email : String) (db : List VTokenRow) :
    (isAdmin (normEmail email) = false →
      verifyAdminMagicLink isAdmin now token email db = (false, db)) ∧
    (isAdmin (normEmail email) = true → findByToken db token = none →
      verifyAdminMagicLink isAdmin now token email db = (false, db)) ∧
    (∀ v, isAdmin (normEmail email) = true → findByToken db token = some v →
      v.identifier ≠ "admin-magic:" ++ normEmail email →
      verifyAdminMagicLink isAdmin now token email db = (false, db)) ∧
    (∀ v, isAdmin (normEmail email) = true → findByToken db token = some v →
      v.identifier = "admin-magic:" ++ normEmail email → v.expires < now →
      verifyAdminMagicLink isAdmin now token email db = (false, deleteByToken db token)) ∧
    (∀ v, isAdmin (normEmail email) = true → findByToken db token = some v →
      v.identifier = "admin-magic:" ++ normEmail email → ¬ v.expires < now →
      verifyAdminMagicLink isAdmin now token email db = (true, deleteByToken db token)) ∧
    (∀ (isAdmin2 : String → Bool) (now2 : Int) (email2 : String),
      (verifyAdminMagicLink isAdmin2 now2 token email2 (deleteByToken db token)).1 = false) := by
  refine ⟨?_, ?_, ?_, ?_, ?_, ?_⟩
  · intro h
    simp [verifyAdminMagicLink, h]
  · intro h hf
    simp [verifyAdminMagicLink, h, hf]
  · intro v h hf hid
    simp [verifyAdminMagicLink, h, hf, hid]
  · intro v h hf hid hexp
    simp [verifyAdminMagicLink, h, hf, hid, hexp]
  · intro v h hf hid hexp
    simp [verifyAdminMagicLink, h, hf, hid, hexp]
  · intro isAdmin2 now2 email2
    by_cases h : isAdmin2 (normEmail email2) = true
    · simp [verifyAdminMagicLink, h, findByToken_deleteByToken]
    · simp only [Bool.not_eq_true] at h
      simp [verifyAdminMagicLink, h]

/-- C1 amended witness: a concrete successful verification consumes the
record, and a repeat attempt with the same token fails, per the amended
theorem applied at those inputs. -/
theorem c1_amended_witness :
    verifyAdminMagicLink (fun _ => true) 0 "tok9" "A@B.com "
        [{ identifier := "admin-magic:a@b.com", token := "tok9", expires := 50 }] =
      (true, deleteByToken
        [{ identifier := "admin-magic:a@b.com", token := "tok9", expires := 50 }] "tok9") ∧
    (verifyAdminMagicLink (fun _ => true) 99 "tok9" "a@b.com"
      (deleteByToken
        [{ identifier := "admin-magic:a@b.com", token := "tok9", expires := 50 }] "tok9")).1 =
      false := by
  constructor
  · exact (c1_amended_verification_lifecycle (fun _ => true) 0 "tok9" "A@B.com "
      [{ identifier := "admin-magic:a@b.com", token := "tok9", expires := 50 }]).2.2.2.2.1
      { identifier := "admin-magic:a@b.com", token := "tok9", expires := 50 }
      (by decide) (by decide) (by decide) (by decide)
  · exact (c1_amended_verification_lifecycle (fun _ => true) 0 "tok9" "A@B.com "
      [{ identifier := "admin-magic:a@b.com", token := "tok9", expires := 50 }]).2.2.2.2.2
      (fun _ => true) 99 "a@b.com"

/-- C7 counterexample: the admin-magic-link issuance does not purge
existing rows — issuing a second link for the same identifier while an
unexpired one exists leaves TWO live rows for that identifier. -/
theorem c7_counterexample_admin_issuance_leaves_two_live_rows :
    (liveRowsFor
      ((createAdminMagicLink (fun _ => true) "https://x.test" "a@b.com" "tok2" none 900
        [{ identifier := "admin-magic:a@b.com", token := "tok1", expires := 900 }]).2)
      "admin-magic:a@b.com" 0).length = 2 := by
  decide

/-- C7 amended: only the email-login issuance purges: after
`sendVerificationRequestEmail`, exactly one `magicLinkCallback` row for
the lowercased email remains, whatever the prior table state; the
admin-magic-link issuance appends its row without removing anything, so
several live rows per identifier can coexist in the
`verificationToken` table. -/
theorem c7_amended_purge_only_in_email_variant :
    (∀ (db : List MLCRow) (email url token : String) (now : Int),
      ((sendVerificationRequestEmail email url token now db).filter
          (fun r => r.identifier == strToLower email)).length = 1) ∧
    (∀ (isAdmin : String → Bool) (baseUrl email token : String)
        (rp : Option String) (expires : Int) (db : List VTokenRow),
      isAdmin (normEmail email) = true →
      (createAdminMagicLink isAdmin baseUrl email token rp expires db).2 =
        db ++ [{ identifier := "admin-magic:" ++ normEmail email,
                 token := token, expires := expires }]) := by
  constructor
  · intro db email url token now
    simp only [sendVerificationRequestEmail]
    rw [List.filter_append]
    have h1 : (db.filter (fun r => !(r.identifier == strToLower email))).filter
        (fun r => r.identifier == strToLower email) = [] := by
      rw [List.filter_filter]
      apply List.filter_eq_nil_iff.mpr
      intro a _
      cases h : a.identifier == strToLower email <;> simp [h]
    rw [h1]
    simp [List.filter]
  · intro isAdmin baseUrl email token rp expires db h
    simp [createAdminMagicLink, h]

/-- C7 amended witness: concrete instances of both conjuncts via the
amended theorem. -/
theorem c7_amended_witness :
    ((sendVerificationRequestEmail "A@B.com" "https://cb" "t1" 0
        [{ identifier := "a@b.com", token := "t0", callbackUrl := "u0", expires := 5 }]).filter
        (fun r => r.identifier == strToLower "A@B.com")).length = 1 ∧
    (createAdminMagicLink (fun _ => true) "https://x" "a@b.com" "t2" none 9 []).2 =
      [{ identifier := "admin-magic:" ++ normEmail "a@b.com", token := "t2", expires := 9 }] := by
  constructor
  · exact c7_amended_purge_only_in_email_variant.1
      [{ identifier := "a@b.com", token := "t0", callbackUrl := "u0", expires := 5 }]
      "A@B.com" "https://cb" "t1" 0
  · exact c7_amended_purge_only_in_email_variant.2
      (fun _ => true) "https://x" "a@b.com" "t2" none 9 [] (by decide)

/-- C2: open-redirect protection of the admin-magic-verify handler
(spec-modelled): a supplied redirect value that does not begin with a
single `/` (absolute URLs, `hub`), begins with `//` (protocol-relative),
or lies outside the allow-listed prefixes, yields the default `/hub` and
never the supplied value; a relative path under an allow-listed prefix is
returned unchanged. -/
theorem c2_redirect_open_redirect_protection (r : String) :
    ((strStarts r "/" = false ∨ strStarts r "//" = true ∨
        (∀ p ∈ allowedRedirectPrefixes, strStarts r p = false)) →
      finalRedirectTarget (some r) = "/hub" ∧ finalRedirectTarget (some r) ≠ r) ∧
    (strStarts r "/" = true → strStarts r "//" = false →
      (∃ p ∈ allowedRedirectPrefixes, strStarts r p = true) →
      finalRedirectTarget (some r) = r) := by
  constructor
  · intro hbad
    have hinvalid : isValidRedirectPath r = false := by
      unfold isValidRedirectPath
      rcases hbad with h | h | h
      · simp [h]
      · simp [h]
      · have : allowedRedirectPrefixes.any (fun p => strStarts r p) = false := by
          simp only [List.any_eq_false]
          intro p hp
          simp [h p hp]
        simp [this]
    have hne : r ≠ "/hub" := by
      intro he
      subst he
      rcases hbad with h | h | h
      · exact absurd h (by decide)
      · exact absurd h (by decide)
      · exact absurd (h "/hub" (by decide)) (by decide)
    constructor
    · simp [finalRedirectTarget, hinvalid]
    · simp only [finalRedirectTarget, hinvalid]
      simp only [Bool.false_eq_true, if_false]
      exact fun he => hne he.symm
  · intro h1 h2 h3
    have hvalid : isValidRedirectPath r = true := by
      unfold isValidRedirectPath
      rcases h3 with ⟨p, hp, hsp⟩
      have : allowedRedirectPrefixes.any (fun p => strStarts r p) = true :=
        List.any_eq_true.mpr ⟨p, hp, hsp⟩
      simp [h1, h2, this]
    simp [finalRedirectTarget, hvalid]

/-- C2 witness: the claim's concrete examples, via the theorem — the four
rejected shapes land on `/hub`; the five allow-listed paths are returned
unchanged. -/
theorem c2_redirect_witness :
    finalRedirectTarget (some "https://evil.com") = "/hub" ∧
    finalRedirectTarget (some "//evil.com") = "/hub" ∧
    finalRedirectTarget (some "/api/secret") = "/hub" ∧
    finalRedirectTarget (some "hub") = "/hub" ∧
    finalRedirectTarget (some "/dashboard") = "/dashboard" ∧
    finalRedirectTarget (some "/settings/x") = "/settings/x" ∧
    finalRedirectTarget (some "/datarooms/1") = "/datarooms/1" ∧
    finalRedirectTarget (some "/admin/y") = "/admin/y" ∧
    finalRedirectTarget (some "/hub") = "/hub" := by
  refine ⟨?_, ?_, ?_, ?_, ?_, ?_, ?_, ?_, ?_⟩
  · exact ((c2_redirect_open_redirect_protection "https://evil.com").1
      (Or.inl (by decide))).1
  · exact ((c2_redirect_open_redirect_protection "//evil.com").1
      (Or.inr (Or.inl (by decide)))).1
  · exact ((c2_redirect_open_redirect_protection "/api/secret").1
      (Or.inr (Or.inr (by decide)))).1
  · exact ((c2_redirect_open_redirect_protection "hub").1
      (Or.inl (by decide))).1
  · exact (c2_redirect_open_redirect_protection "/dashboard").2
      (by decide) (by decide) ⟨"/dashboard", by decide, by decide⟩
  · exact (c2_redirect_open_redirect_protection "/settings/x").2
      (by decide) (by decide) ⟨"/settings", by decide, by decide⟩
  · exact (c2_redirect_open_redirect_protection "/datarooms/1").2
      (by decide) (by decide) ⟨"/datarooms", by decide, by decide⟩
  · exact (c2_redirect_open_redirect_protection "/admin/y").2
      (by decide) (by decide) ⟨"/admin", by decide, by decide⟩
  · exact (c2_redirect_open_redirect_protection "/hub").2
      (by decide) (by decide) ⟨"/hub", by decide, by decide⟩

theorem alnum_body {c : Char} (h : isAlnumChar c = true) : hostBodyChar c = true := by
  simp [hostBodyChar, h]

theorem hostPatTail_iff (l : List Char) :
    hostPatTail l = true ↔
      (l ≠ [] ∧ (∀ c ∈ l, hostBodyChar c = true) ∧
        (∃ c, l.getLast? = some c ∧ isAlnumChar c = true)) := by
  induction l with
  | nil => simp [hostPatTail]
  | cons x xs ih =>
    cases xs with
    | nil =>
      simp only [hostPatTail]
      constructor
      · intro h
        refine ⟨by simp, ?_, ⟨x, rfl, h⟩⟩
        intro c hc
        simp only [List.mem_singleton] at hc
        subst hc
        exact alnum_body h
      · rintro ⟨-, -, ⟨c, hc, halnum⟩⟩
        have : x = c := by
          simpa using hc
        subst this
        exact halnum
    | cons y ys =>
      simp only [hostPatTail, Bool.and_eq_true, ih]
      constructor
      · rintro ⟨hb, -, hall, hex⟩
        refine ⟨by simp, ?_, hex⟩
        intro c hc
        rcases List.mem_cons.mp hc with rfl | hc2
        · exact hb
        · exact hall c hc2
      · rintro ⟨-, hall, hex⟩
        exact ⟨hall x (List.mem_cons_self x _), by simp,
          fun c hc => hall c (List.mem_cons_of_mem x hc), hex⟩

theorem hostPat_iff (l : List Char) : hostPat l = true ↔ grammarSpec l := by
  cases l with
  | nil =>
    simp only [hostPat, grammarSpec]
    constructor
    · intro h
      exact absurd h (by simp)
    · rintro ⟨⟨c, hc, -⟩, -, -⟩
      exact Option.noConfusion hc
  | cons x xs =>
    cases xs with
    | nil =>
      simp only [hostPat, grammarSpec]
      constructor
      · intro h
        refine ⟨⟨x, rfl, h⟩, ⟨x, rfl, h⟩, ?_⟩
        intro c hc
        simp only [List.mem_singleton] at hc
        subst hc
        exact alnum_body h
      · rintro ⟨⟨c, hc, halnum⟩, -, -⟩
        have : x = c := by simpa using hc
        subst this
        exact halnum
    | cons y ys =>
      simp only [hostPat, Bool.and_eq_true, hostPatTail_iff, grammarSpec]
      constructor
      · rintro ⟨ha, -, hall, hex⟩
        refine ⟨⟨x, rfl, ha⟩, hex, ?_⟩
        intro c hc
        rcases List.mem_cons.mp hc with rfl | hc2
        · exact alnum_body ha
        · exact hall c hc2
      · rintro ⟨⟨c, hc, halnum⟩, hex, hall⟩
        have hx : x = c := by simpa using hc
        subst hx
        exact ⟨halnum, by simp,
          fun c2 hc2 => hall c2 (List.mem_cons_of_mem x hc2), hex⟩

theorem preColon_of_grammar {s : String} (hg : grammarSpec s.toList) :
    preColon s = s := by
  unfold preColon
  have hall : ∀ c ∈ s.toList, (fun c => decide (c ≠ ':')) c = true := by
    intro c hc
    have hb := hg.2.2 c hc
    simp only [decide_eq_true_eq]
    intro he
    subst he
    exact absurd hb (by decide)
  rw [List.takeWhile_eq_self_iff.mpr hall]
  rfl

/-- C5 counterexample: the Host value `a:8080` does not match the claimed
hostname grammar (it contains a colon), so the claim places it among the
values rejected with 400 — but `validateHost` strips the port suffix
before testing and accepts it, and the proxy proceeds to normal dispatch. -/
theorem c5_counterexample_port_suffix_accepted :
    hostPat ("a:8080".toList) = false ∧
    validateHost (some "a:8080") = true ∧
    (proxy { webhookHost := fun _ => false, customDomain := fun _ => false,
             blockedView := fun _ => false }
      { rawPath := "/x", host := some "a:8080", forwardedFor := none,
        realIP := none }).1 = ProxyOutcome.app := by
  refine ⟨by decide, by decide, by decide⟩

/-- C5 amended: host validation is applied to the portion of the Host
value before the first `:` (the hostname with any port suffix stripped):
every string matching the grammar (first and last characters
alphanumeric, all characters alphanumeric/hyphen/dot) of length at most
253 is accepted; in general a Host value is accepted exactly when its
pre-colon portion is at most 253 characters and matches the grammar; an
absent Host is rejected; and at the proxy level (for paths that
sanitize), the 400 invalid-host JSON error is returned precisely when
validation fails, before any dispatch. -/
theorem c5_amended_host_validation :
    (∀ h : String, grammarSpec h.toList → h.length ≤ 253 →
      validateHost (some h) = true) ∧
    (∀ h : String, validateHost (some h) = true ↔
      ((preColon h).length ≤ 253 ∧ grammarSpec (preColon h).toList)) ∧
    validateHost none = false ∧
    (∀ (env : ProxyEnv) (req : ProxyReq) (p : String),
      sanitizePath req.rawPath = some p →
      ((proxy env req).1 = ProxyOutcome.errorResp "Invalid host header" 400 ↔
        validateHost req.host = false)) := by
  have main : ∀ hst : String, validateHost (some hst) = true ↔
      ((preColon hst).length ≤ 253 ∧ grammarSpec (preColon hst).toList) := by
    intro hst
    by_cases he : hst = ""
    · subst he
      constructor
      · intro hh
        exact absurd hh (by decide)
      · rintro ⟨-, ⟨c, hc, -⟩, -⟩
        rw [show (preColon "").toList = [] from rfl] at hc
        exact Option.noConfusion hc
    · by_cases hlen : 253 < (preColon hst).length
      · have hv : validateHost (some hst) = false := by
          simp [validateHost, he, hlen]
        rw [hv]
        constructor
        · intro hh
          exact Bool.noConfusion hh
        · rintro ⟨h1, -⟩
          omega
      · by_cases hpat : hostPat (preColon hst).toList = true
        · have hpat2 : hostPat (preColon hst).data = true := hpat
          have hv : validateHost (some hst) = true := by
            simp [validateHost, he, hlen, hpat2]
          rw [hv]
          exact ⟨fun _ => ⟨by omega, (hostPat_iff _).mp hpat⟩, fun _ => rfl⟩
        · have hpat2 : ¬ hostPat (preColon hst).data = true := hpat
          have hv : validateHost (some hst) = false := by
            simp [validateHost, he, hlen, hpat2]
          rw [hv]
          constructor
          · intro hh
            exact Bool.noConfusion hh
          · rintro ⟨-, hg⟩
            exact absurd ((hostPat_iff _).mpr hg) hpat
  refine ⟨?_, main, rfl, ?_⟩
  · intro h hg hlen
    rw [main h, preColon_of_grammar hg]
    exact ⟨hlen, hg⟩
  · intro env req p hs
    unfold proxy
    rw [hs]
    simp only []
    split
    · rename_i hv
      rw [Bool.not_eq_true] at hv
      exact ⟨fun _ => hv, fun _ => rfl⟩
    · rename_i hv
      rw [Bool.not_eq_true, Bool.not_eq_false] at hv
      constructor
      · intro hcontr
        exact absurd hcontr (proxyDispatch_ne_errorResp _ _ _ _ _)
      · intro hfalse
        rw [hv] at hfalse
        exact Bool.noConfusion hfalse

/-- C5 amended witness: `example.com` (grammar-conforming, ≤253 chars) is
accepted, and a request with Host `bad_host` (underscore) receives the
400 invalid-host error, both via the amended theorem at concrete
inputs. -/
theorem c5_amended_witness :
    validateHost (some "example.com") = true ∧
    (proxy { webhookHost := fun _ => false, customDomain := fun _ => false,
             blockedView := fun _ => false }
      { rawPath := "/x", host := some "bad_host", forwardedFor := none,
        realIP := none }).1 = ProxyOutcome.errorResp "Invalid host header" 400 := by
  constructor
  · exact c5_amended_host_validation.1 "example.com"
      ⟨⟨'e', rfl, by decide⟩, ⟨'m', by decide, by decide⟩, by decide⟩
      (by decide)
  · exact (c5_amended_host_validation.2.2.2
      { webhookHost := fun _ => false, customDomain := fun _ => false,
        blockedView := fun _ => false }
      { rawPath := "/x", host := some "bad_host", forwardedFor := none,
        realIP := none }
      "/x" (by decide)).mpr (by decide)

theorem lp_path_facts {p : String} (h : strStarts p "/lp/" = true) :
    p ≠ "/" ∧ p ≠ "/signup" ∧ strStarts p "/view/" = false ∧
    p ≠ "/viewer-redirect" := by
  exact ⟨ne_of_strStarts h (by decide), ne_of_strStarts h (by decide),
    strStarts_false_of_incomparable h (by decide) (by decide),
    ne_of_strStarts h (by decide)⟩

theorem gp_path_facts {p : String}
    (h : gpRoutes.any (fun r => strStarts p r) = true) :
    p ≠ "/" ∧ p ≠ "/lp/onboard" ∧ p ≠ "/lp/login" ∧ p ≠ "/signup" ∧
    strStarts p "/view/" = false ∧ p ≠ "/viewer-redirect" ∧
    strStarts p "/lp/" = false := by
  rw [List.any_eq_true] at h
  obtain ⟨r, hr, hsp⟩ := h
  simp only [gpRoutes, List.mem_cons, List.mem_singleton, List.not_mem_nil,
    or_false] at hr
  rcases hr with rfl | rfl | rfl | rfl | rfl | rfl
  all_goals
    exact ⟨ne_of_strStarts hsp (by decide), ne_of_strStarts hsp (by decide),
      ne_of_strStarts hsp (by decide), ne_of_strStarts hsp (by decide),
      strStarts_false_of_incomparable hsp (by decide) (by decide),
      ne_of_strStarts hsp (by decide),
      strStarts_false_of_incomparable hsp (by decide) (by decide)⟩

/-- C3: the app-middleware route-group guards.  (a) an unauthenticated
request to an LP route-group path (prefix `/lp/`, excluding the public
`/lp/login` and `/lp/onboard` pages) redirects to `/lp/login` with the
original path and query carried in `next`; (b) an authenticated LP-role
request to a GP route-group path (a `gpRoutes` prefix, excluding the
admin login page, which the spec excludes from the group) redirects to
`/viewer-portal`; (c) an authenticated GP-role request to any LP
route-group path is allowed through. -/
theorem c3_route_group_guards (now : Int) (req : AppReq) (t : JWTClaims)
    (e : String) :
    (strStarts req.path "/lp/" = true → req.path ≠ "/lp/login" →
      req.path ≠ "/lp/onboard" →
      AppMiddleware now req none =
        some (.redirect "/lp/login" [("next", nextPathOf req)])) ∧
    (req.path ≠ "/admin/login" →
      gpRoutes.any (fun r => strStarts req.path r) = true →
      t.email = some e → t.role = some "LP" →
      AppMiddleware now req (some t) = some (.redirect "/viewer-portal" [])) ∧
    (strStarts req.path "/lp/" = true → t.email = some e →
      t.role = some "GP" →
      AppMiddleware now req (some t) = some .next) := by
  refine ⟨?_, ?_, ?_⟩
  · intro hlp hne1 hne2
    obtain ⟨h1, h2, h3, h4⟩ := lp_path_facts hlp
    simp [AppMiddleware, h1, h2, h3, h4, hne1, hne2, hlp]
  · intro hne hgp he hrole
    obtain ⟨h1, h2, h3, h4, h5, h6, h7⟩ := gp_path_facts hgp
    simp [AppMiddleware, h1, h2, h3, h4, h5, h6, h7, hne, hgp, he, hrole]
  · intro hlp he hrole
    obtain ⟨h1, h2, h3, h4⟩ := lp_path_facts hlp
    by_cases hon : req.path = "/lp/onboard"
    · simp [AppMiddleware, h1, hon]
    · by_cases hlg : req.path = "/lp/login"
      · simp [AppMiddleware, h1, hlg]
      · simp [AppMiddleware, h1, h2, h3, h4, hon, hlg, hlp, he, hrole]

/-- C3 witness: the three guards at concrete requests, via the theorem:
an unauthenticated request to `/lp/portfolio?a=b` redirects to
`/lp/login` with `next=/lp/portfolio?a=b`; an authenticated LP on
`/dashboard` lands on `/viewer-portal`; an authenticated GP on
`/lp/portfolio` is allowed. -/
theorem c3_route_group_witness :
    AppMiddleware 0 { path := "/lp/portfolio", query := [("a", "b")] } none =
      some (.redirect "/lp/login" [("next", "/lp/portfolio?a=b")]) ∧
    AppMiddleware 0 { path := "/dashboard", query := [] }
      (some { email := some "lp@x.com", role := some "LP", createdAt := none }) =
      some (.redirect "/viewer-portal" []) ∧
    AppMiddleware 0 { path := "/lp/portfolio", query := [] }
      (some { email := some "gp@x.com", role := some "GP", createdAt := none }) =
      some MWResponse.next := by
  refine ⟨?_, ?_, ?_⟩
  · have h := (c3_route_group_guards 0 { path := "/lp/portfolio", query := [("a", "b")] }
      { email := none, role := none, createdAt := none } "").1
      (by decide) (by decide) (by decide)
    exact h.trans (by decide)
  · exact (c3_route_group_guards 0 { path := "/dashboard", query := [] }
      { email := some "lp@x.com", role := some "LP", createdAt := none } "lp@x.com").2.1
      (by decide) (by decide) rfl rfl
  · exact (c3_route_group_guards 0 { path := "/lp/portfolio", query := [] }
      { email := some "gp@x.com", role := some "GP", createdAt := none } "gp@x.com").2.2
      (by decide) rfl rfl

/-- C8 counterexample: an authenticated GP request to `/dashboard` whose
account was created this instant (within 10 seconds), with no
`invitation` parameter, is ALLOWED by the GP route branch — it never
reaches the welcome gate, so it is not redirected to `/welcome` as the
claim ("targeting any path other than /welcome") requires. -/
theorem c8_counterexample_gp_route_bypasses_welcome :
    AppMiddleware 100000 { path := "/dashboard", query := [] }
      (some { email := some "gp@x.com", role := some "GP",
              createdAt := some 100000 }) = some MWResponse.next ∧
    some MWResponse.next ≠ some (MWResponse.redirect "/welcome" []) := by
  refine ⟨by decide, by decide⟩

/-- C8 amended: the welcome gate governs only the paths that fall through
to the generic authenticated handling (`welcomeGateScope`: not the root,
not a public page, not under `/view/`, not `/viewer-redirect`, not under
`/lp/`, not a GP route, not a login page).  On those paths, an
authenticated request whose account `createdAt` is within 10 seconds of
now, targeting a path other than `/welcome` with no `invitation`
parameter, is redirected to `/welcome`; with the `invitation` parameter
present it is not redirected to `/welcome`. -/
theorem c8_amended_welcome_gate (now : Int) (req : AppReq) (t : JWTClaims)
    (e : String) (c : Int) :
    welcomeGateScope req.path →
    t.email = some e → t.createdAt = some c → now - 10000 < c →
    ((hasParam req "invitation" = false → req.path ≠ "/welcome" →
        AppMiddleware now req (some t) = some (.redirect "/welcome" [])) ∧
      (hasParam req "invitation" = true →
        AppMiddleware now req (some t) ≠ some (.redirect "/welcome" []))) := by
  rintro ⟨h1, h2, h3, h4, h5, h6, h7, h8, h9, h10⟩ he hc hfresh
  have hfresh2 : decide (now - 10000 < c) = true := decide_eq_true hfresh
  have h8e : ¬ ∃ x, x ∈ gpRoutes ∧ strStarts req.path x = true := by
    rintro ⟨x, hx, hsx⟩
    have hcontr := List.any_eq_true.mpr ⟨x, hx, hsx⟩
    rw [h8] at hcontr
    exact Bool.noConfusion hcontr
  constructor
  · intro hinv hwel
    simp [AppMiddleware, h1, h2, h3, h4, h5, h6, h7, h8, h8e, h9, h10,
      he, hc, hfresh2, hinv, hwel]
  · intro hinv
    by_cases hvp : req.path = "/viewer-portal"
    · have hv1 : strStarts req.path "/view/" = false := h5
      rw [hvp] at hv1 h7 h8e
      simp [AppMiddleware, h1, h2, h3, h4, hv1, h6, h7, h8e, h9, h10,
        he, hinv, hvp]
    · simp [AppMiddleware, h1, h2, h3, h4, h5, h6, h7, h8, h8e, h9, h10,
        he, hinv, hvp]

/-- C8 amended witness: on the in-scope path `/newpage`, a fresh
authenticated account without `invitation` is redirected to `/welcome`;
the same request with `invitation` present is not — both via the amended
theorem at concrete inputs. -/
theorem c8_amended_witness :
    AppMiddleware 100 { path := "/newpage", query := [] }
      (some { email := some "u@x.com", role := some "GP",
              createdAt := some 100 }) = some (.redirect "/welcome" []) ∧
    AppMiddleware 100 { path := "/newpage", query := [("invitation", "1")] }
      (some { email := some "u@x.com", role := some "GP",
              createdAt := some 100 }) ≠ some (.redirect "/welcome" []) := by
  constructor
  · exact (c8_amended_welcome_gate 100 { path := "/newpage", query := [] }
      { email := some "u@x.com", role := some "GP", createdAt := some 100 }
      "u@x.com" 100
      ⟨by decide, by decide, by decide, by decide, by decide, by decide,
        by decide, by decide, by decide, by decide⟩
      rfl rfl (by decide)).1 (by decide) (by decide)
  · exact (c8_amended_welcome_gate 100
      { path := "/newpage", query := [("invitation", "1")] }
      { email := some "u@x.com", role := some "GP", createdAt := some 100 }
      "u@x.com" 100
      ⟨by decide, by decide, by decide, by decide, by decide, by decide,
        by decide, by decide, by decide, by decide⟩
      rfl rfl (by decide)).2 (by decide)

theorem rateLimit_store_other (cfg : RateLimitConfig) (store : RLStore)
    (now : Nat) (ip endpoint : String) (k2 : RLKey)
    (h : k2 ≠ rlKey cfg ip endpoint) :
    (rateLimit cfg store now ip endpoint).2 k2 = store k2 := by
  simp only [rateLimit]
  split <;> simp [h]

theorem rateLimit_fresh (cfg : RateLimitConfig) (store : RLStore) (now : Nat)
    (ip endpoint : String) (h : store (rlKey cfg ip endpoint) = none)
    (hmax : 1 ≤ cfg.maxRequests) :
    rateLimit cfg store now ip endpoint =
      (.allowed cfg.maxRequests (cfg.maxRequests - 1)
        ((now + cfg.windowMs - now) / 1000),
       fun k2 => if k2 = rlKey cfg ip endpoint
         then some { count := 1, windowStart := now } else store k2) := by
  simp only [rateLimit]
  rw [h]
  simp [hmax]

theorem rateLimit_hit (cfg : RateLimitConfig) (store : RLStore) (now : Nat)
    (ip endpoint : String) (cnt ws : Nat)
    (h : store (rlKey cfg ip endpoint) = some { count := cnt, windowStart := ws })
    (hin : now < ws + cfg.windowMs) :
    rateLimit cfg store now ip endpoint =
      ((if cnt + 1 ≤ cfg.maxRequests then
          RLDecision.allowed cfg.maxRequests (cfg.maxRequests - (cnt + 1))
            ((ws + cfg.windowMs - now) / 1000)
        else
          RLDecision.rejected 429 "Too many requests"
            ((ws + cfg.windowMs - now) / 1000)),
       fun k2 => if k2 = rlKey cfg ip endpoint
         then some { count := cnt + 1, windowStart := ws } else store k2) := by
  simp only [rateLimit]
  rw [h]
  simp only [hin, if_true, if_pos hin]
  split <;> rfl

/-- C4: for a limiter with `maxRequests = 3` (spec-modelled, since
`lib/security/rate-limiter.ts` is missing from the sources): starting
from a key with no counter, four requests at non-decreasing times inside
one window are admitted with `X-RateLimit-Remaining` 2, 1, 0 and then
rejected with HTTP 429, body error `"Too many requests"` and a
`retryAfter` value; a request under a different IP or endpoint whose key
is fresh starts a new counter (remaining 2), unaffected by the first
key's count. -/
theorem c4_rate_limiter_boundary (cfg : RateLimitConfig) (store0 : RLStore)
    (t1 t2 t3 t4 : Nat) (ip ep ip2 ep2 : String)
    (hmax : cfg.maxRequests = 3)
    (h0 : store0 (rlKey cfg ip ep) = none)
    (h12 : t1 ≤ t2) (h23 : t2 ≤ t3) (h34 : t3 ≤ t4)
    (hwin : t4 < t1 + cfg.windowMs)
    (hdiff : ip2 ≠ ip ∨ ep2 ≠ ep)
    (h0b : store0 (rlKey cfg ip2 ep2) = none) :
    (rateLimit cfg store0 t1 ip ep).1 =
      RLDecision.allowed 3 2 ((t1 + cfg.windowMs - t1) / 1000) ∧
    (rateLimit cfg (rateLimit cfg store0 t1 ip ep).2 t2 ip ep).1 =
      RLDecision.allowed 3 1 ((t1 + cfg.windowMs - t2) / 1000) ∧
    (rateLimit cfg (rateLimit cfg (rateLimit cfg store0 t1 ip ep).2
        t2 ip ep).2 t3 ip ep).1 =
      RLDecision.allowed 3 0 ((t1 + cfg.windowMs - t3) / 1000) ∧
    (rateLimit cfg (rateLimit cfg (rateLimit cfg (rateLimit cfg store0
        t1 ip ep).2 t2 ip ep).2 t3 ip ep).2 t4 ip ep).1 =
      RLDecision.rejected 429 "Too many requests"
        ((t1 + cfg.windowMs - t4) / 1000) ∧
    (rateLimit cfg (rateLimit cfg (rateLimit cfg (rateLimit cfg (rateLimit
        cfg store0 t1 ip ep).2 t2 ip ep).2 t3 ip ep).2 t4 ip ep).2
        t4 ip2 ep2).1 =
      RLDecision.allowed 3 2 ((t4 + cfg.windowMs - t4) / 1000) := by
  have hmax1 : 1 ≤ cfg.maxRequests := by omega
  have e1 := rateLimit_fresh cfg store0 t1 ip ep h0 hmax1
  have hs1 : (rateLimit cfg store0 t1 ip ep).2 (rlKey cfg ip ep) =
      some { count := 1, windowStart := t1 } := by
    rw [e1]
    simp
  have e2 := rateLimit_hit cfg (rateLimit cfg store0 t1 ip ep).2 t2 ip ep
    1 t1 hs1 (by omega)
  have hs2 : (rateLimit cfg (rateLimit cfg store0 t1 ip ep).2 t2 ip ep).2
      (rlKey cfg ip ep) = some { count := 2, windowStart := t1 } := by
    rw [e2]
    simp
  have e3 := rateLimit_hit cfg
    (rateLimit cfg (rateLimit cfg store0 t1 ip ep).2 t2 ip ep).2 t3 ip ep
    2 t1 hs2 (by omega)
  have hs3 : (rateLimit cfg (rateLimit cfg (rateLimit cfg store0 t1 ip ep).2
      t2 ip ep).2 t3 ip ep).2 (rlKey cfg ip ep) =
      some { count := 3, windowStart := t1 } := by
    rw [e3]
    simp
  have e4 := rateLimit_hit cfg
    (rateLimit cfg (rateLimit cfg (rateLimit cfg store0 t1 ip ep).2
      t2 ip ep).2 t3 ip ep).2 t4 ip ep 3 t1 hs3 (by omega)
  have hkne : rlKey cfg ip2 ep2 ≠ rlKey cfg ip ep := by
    intro he
    simp only [rlKey, Prod.mk.injEq] at he
    rcases hdiff with h' | h'
    · exact h' he.2.1
    · exact h' he.2.2
  have hs4b : (rateLimit cfg (rateLimit cfg (rateLimit cfg (rateLimit cfg
      store0 t1 ip ep).2 t2 ip ep).2 t3 ip ep).2 t4 ip ep).2
      (rlKey cfg ip2 ep2) = none := by
    rw [rateLimit_store_other cfg _ t4 ip ep _ hkne,
      rateLimit_store_other cfg _ t3 ip ep _ hkne,
      rateLimit_store_other cfg _ t2 ip ep _ hkne,
      rateLimit_store_other cfg _ t1 ip ep _ hkne, h0b]
  have e5 := rateLimit_fresh cfg
    (rateLimit cfg (rateLimit cfg (rateLimit cfg (rateLimit cfg store0
      t1 ip ep).2 t2 ip ep).2 t3 ip ep).2 t4 ip ep).2 t4 ip2 ep2 hs4b hmax1
  refine ⟨?_, ?_, ?_, ?_, ?_⟩
  · rw [e1, hmax]
  · rw [e2, hmax]
    norm_num
  · rw [e3, hmax]
    norm_num
  · rw [e4, hmax]
    norm_num
  · rw [e5, hmax]

/-- C4 witness: a concrete run — four same-window requests from one
(IP, endpoint) under a `maxRequests = 3` limiter are admitted with
remaining 2, 1, 0 and then rejected with 429, while a request from a
different IP starts fresh with remaining 2 — via the theorem at concrete
inputs. -/
theorem c4_rate_limiter_witness :
    (rateLimit ⟨60000, 3, "auth"⟩ (fun _ => none) 0 "1.2.3.4" "/api/a").1 =
      RLDecision.allowed 3 2 60 ∧
    (rateLimit ⟨60000, 3, "auth"⟩ (rateLimit ⟨60000, 3, "auth"⟩
      (fun _ => none) 0 "1.2.3.4" "/api/a").2 0 "1.2.3.4" "/api/a").1 =
      RLDecision.allowed 3 1 60 ∧
    (rateLimit ⟨60000, 3, "auth"⟩ (rateLimit ⟨60000, 3, "auth"⟩
      (rateLimit ⟨60000, 3, "auth"⟩ (fun _ => none) 0 "1.2.3.4" "/api/a").2
      0 "1.2.3.4" "/api/a").2 0 "1.2.3.4" "/api/a").1 =
      RLDecision.allowed 3 0 60 ∧
    (rateLimit ⟨60000, 3, "auth"⟩ (rateLimit ⟨60000, 3, "auth"⟩
      (rateLimit ⟨60000, 3, "auth"⟩ (rateLimit ⟨60000, 3, "auth"⟩
      (fun _ => none) 0 "1.2.3.4" "/api/a").2 0 "1.2.3.4" "/api/a").2
      0 "1.2.3.4" "/api/a").2 0 "1.2.3.4" "/api/a").1 =
      RLDecision.rejected 429 "Too many requests" 60 ∧
    (rateLimit ⟨60000, 3, "auth"⟩ (rateLimit ⟨60000, 3, "auth"⟩
      (rateLimit ⟨60000, 3, "auth"⟩ (rateLimit ⟨60000, 3, "auth"⟩
      (rateLimit ⟨60000, 3, "auth"⟩ (fun _ => none) 0 "1.2.3.4" "/api/a").2
      0 "1.2.3.4" "/api/a").2 0 "1.2.3.4" "/api/a").2 0 "1.2.3.4" "/api/a").2
      0 "5.6.7.8" "/api/a").1 =
      RLDecision.allowed 3 2 60 := by
  exact c4_rate_limiter_boundary ⟨60000, 3, "auth"⟩ (fun _ => none)
    0 0 0 0 "1.2.3.4" "/api/a" "5.6.7.8" "/api/a" rfl rfl
    (Nat.le_refl 0) (Nat.le_refl 0) (Nat.le_refl 0) (by decide)
    (Or.inl (by decide)) rfl

end Dataroom
